import Mathlib

/-!
Verification development for the GridSync hybrid carbon engine
(`maps/geo_estimator.py`).

The Python module is shallowly embedded over exact rationals (`ℚ` stands for
the float values; every claim checked here is an order/equality property that
is insensitive to rounding of the underlying arithmetic).  External effects
(spatial index queries, polygon containment, the reverse geocoder, the UK
live feed, the numeric square root used by one engineered feature) are
abstracted as explicit parameters of an `Env` record; everything else is a
direct transcription of the Python control flow and arithmetic.
-/

/-! ## Substring search (Python `needle in haystack`) -/

/-- Boolean prefix test on character lists (helper for substring search). -/
def subPref : List Char → List Char → Bool
  | [], _ => true
  | _ :: _, [] => false
  | a :: as, b :: bs => a == b && subPref as bs

/-- Boolean infix test: does `needle` occur contiguously inside the second list? -/
def subList : List Char → List Char → Bool
  | needle, [] => subPref needle []
  | needle, c :: t => subPref needle (c :: t) || subList needle t

/-- Python `needle in hay` on strings (contiguous substring containment). -/
def containsSub (hay needle : String) : Bool := subList needle.data hay.data

/-- Python `s.lower()` (character-wise lowercasing; the fuel vocabulary is
ASCII). -/
def lowerStr (s : String) : String := ⟨s.data.map Char.toLower⟩

/-! ## Fuel classification (`classify_fuel`, lines 730–751) -/

/-- Keyword list of the coal branch. -/
def coalKeys : List String := ["coal"]

/-- Keyword list of the natural-gas branch. -/
def gasKeys : List String := ["gas", "ccgt", "ocgt"]

/-- Keyword list of the petroleum branch. -/
def oilKeys : List String := ["oil", "petrol", "diesel", "petroleum"]

/-- Keyword list of the solar branch. -/
def solarKeys : List String := ["solar", "pv"]

/-- Keyword list of the wind branch. -/
def windKeys : List String := ["wind"]

/-- Keyword list of the hydro branch. -/
def hydroKeys : List String := ["hydro", "water"]

/-- Keyword list of the nuclear branch. -/
def nuclearKeys : List String := ["nuclear"]

/-- Keyword list of the geothermal branch. -/
def geoKeys : List String := ["geotherm"]

/-- Keyword list of the biomass branch (mapped to fossil by the source). -/
def bioKeys : List String := ["biomass", "bio"]

/-- Python `any(k in s for k in keys)`. -/
def matchesAny (s : String) (keys : List String) : Bool :=
  keys.any (fun k => containsSub s k)

/-- `classify_fuel`: map a Climate TRACE `source_type` label to a CodeCarbon
fuel category, by ordered keyword-substring matching on the lowercased label;
biomass and anything unmatched fall through to the conservative category
denoted by the string of letters f,o,s,s,i,l. -/
def classify_fuel (sourceType : String) : String :=
  let s := lowerStr sourceType
  if matchesAny s coalKeys then "coal"
  else if matchesAny s gasKeys then "natural_gas"
  else if matchesAny s oilKeys then "petroleum"
  else if matchesAny s solarKeys then "solar"
  else if matchesAny s windKeys then "wind"
  else if matchesAny s hydroKeys then "hydroelectricity"
  else if matchesAny s nuclearKeys then "nuclear"
  else if matchesAny s geoKeys then "geothermal"
  else if matchesAny s bioKeys then "fossil"
  else "fossil"

/-- The nine categories `classify_fuel` can produce. -/
def fuelCategories : List String :=
  ["coal", "natural_gas", "petroleum", "solar", "wind",
   "hydroelectricity", "nuclear", "geothermal", "fossil"]

/-- Disjunction of every branch condition of `classify_fuel`: the label
matches at least one keyword list. -/
def matchesSomeKeyword (sourceType : String) : Bool :=
  let s := lowerStr sourceType
  matchesAny s coalKeys || matchesAny s gasKeys || matchesAny s oilKeys ||
  matchesAny s solarKeys || matchesAny s windKeys || matchesAny s hydroKeys ||
  matchesAny s nuclearKeys || matchesAny s geoKeys || matchesAny s bioKeys

/-! ## Memoised fuel classification (`_classify_fuel_cached`, lines 1279–1288).
The module-level dict `_FUEL_CACHE` is modelled as an association list threaded
through the call. -/

/-- Lookup in the memoisation cache (`_FUEL_CACHE.get`). -/
def fuelCacheGet : List (String × String) → String → Option String
  | [], _ => none
  | (k, v) :: t, s => if k = s then some v else fuelCacheGet t s

/-- `_classify_fuel_cached`: return the cached category if present, otherwise
classify and record the result.  Returns the value and the updated cache. -/
def classify_fuel_cached (cache : List (String × String)) (s : String) :
    String × List (String × String) :=
  match fuelCacheGet cache s with
  | some v => (v, cache)
  | none => (classify_fuel s, (s, classify_fuel s) :: cache)

/-- Invariant of `_FUEL_CACHE`: every stored value is the classifier's answer
for its key.  The module initialises the cache empty, so the invariant holds
at start-up, and every call preserves it. -/
def FuelCacheConsistent (cache : List (String × String)) : Prop :=
  ∀ p ∈ cache, p.2 = classify_fuel p.1

/-! ## Per-plant linear trend fit (`load_power_plants`, lines 221–277).

A plant's annual series is a list of `(t, e?)` pairs: `t` is the year offset
`year - BASELINE` (one entry per column of the pivot table, i.e. per complete
year present in the whole dataset) and `e?` is the plant's summed emissions for
that year, `none` for a NaN cell (plant missing that year).  The numpy code
zeroes the centred emissions at NaN cells before the row sums, so the sums
range over the valid cells only; the definitions below sum over the valid
sublist directly, which is the same number. -/

/-- One plant-year row: year offset paired with the optional emissions value. -/
abbrev Series := List (ℚ × Option ℚ)

/-- Mean of the year offsets (`t_mean` over the full year vector). -/
def tMean (ps : Series) : ℚ := (ps.map (fun p => p.1)).sum / (ps.length : ℚ)

/-- The valid (non-NaN) cells of the row. -/
def validList (ps : Series) : List (ℚ × ℚ) :=
  ps.filterMap (fun p => p.2.map (fun e => (p.1, e)))

/-- Number of valid years of the plant (`valid_mask` count). -/
def validCount (ps : Series) : ℕ := (validList ps).length

/-- `np.nanmean` of the emissions row. -/
def eMean (ps : Series) : ℚ :=
  ((validList ps).map (fun p => p.2)).sum / (validCount ps : ℚ)

/-- Slope numerator `Σ (tc * ec)`: centred emissions are zeroed at NaN cells,
so only valid cells contribute. -/
def trendNumer (ps : Series) : ℚ :=
  ((validList ps).map (fun p => (p.2 - eMean ps) * (p.1 - tMean ps))).sum

/-- Slope denominator `Σ (tc² * valid)`. -/
def trendDenom (ps : Series) : ℚ :=
  ((validList ps).map (fun p => (p.1 - tMean ps) ^ 2)).sum

/-- Raw least-squares slope `b_raw` with the `denominator > 0` guard. -/
def bRaw (ps : Series) : ℚ :=
  if 0 < trendDenom ps then trendNumer ps / trendDenom ps else 0

/-- Fitted intercept `c = e_mean - b * t_mean` (emissions at `t = 0`). -/
def cFit (ps : Series) : ℚ := eMean ps - bRaw ps * tMean ps

/-- `e_current`: the intercept floored away from near zero — entries with
`|c| < 1` are replaced by `max |e_mean| 1`. -/
def eCurrent (ps : Series) : ℚ :=
  if |cFit ps| < 1 then max |eMean ps| 1 else cFit ps

/-- Normalised slope `b_norm = b_raw / e_current` (fractional change/year). -/
def bNorm (ps : Series) : ℚ := bRaw ps / eCurrent ps

/-- The physical bound `MAX_B` on the normalised slope: 15 %/year. -/
def MAX_B : ℚ := 15 / 100

/-- `np.clip x lo hi`. -/
def clip (lo hi x : ℚ) : ℚ := min (max x lo) hi

/-- The per-plant trend coefficient: the clamped normalised slope.  A pure
function of the plant's own series (plus the dataset's year vector carried
inside `ps`); no other asset's data enters. -/
def plantTrendB (ps : Series) : ℚ := clip (-MAX_B) MAX_B (bNorm ps)

/-- `plant_trends`: the coefficient computed for every plant of the pivot
table (plants with at least one complete-year row). -/
def plantTrends (tbl : List (String × Series)) : List (String × ℚ) :=
  tbl.map (fun p => (p.1, plantTrendB p.2))

/-- Association-list lookup used when the coefficient is attached. -/
def assocFind : List (String × ℚ) → String → Option ℚ
  | [], _ => none
  | (k, v) :: t, s => if k = s then some v else assocFind t s

/-- `POWER_PLANTS_DF['trend_b']`: the coefficient attached to a plant row,
`plant_trends.get(name, {}).get('b', 0.0)` — plants absent from the trend
table (no complete-year data at all) get 0. -/
def attachedTrendB (tbl : List (String × Series)) (name : String) : ℚ :=
  (assocFind (plantTrends tbl) name).getD 0

/-! ## Loader cache (`load_power_plants`, lines 148–165 and 297–307) -/

/-- A pickled cache artifact: the staleness key (source modification time)
stored next to the payload. -/
structure CacheEntry (α : Type) where
  sourceMtime : ℚ
  payload : α

/-- The cache protocol of `load_power_plants` (shared by the other loaders):
if a readable cache entry exists and its stored `source_mtime` equals the
current one, the payload is served and the rebuild skipped; otherwise the
table is rebuilt from source (and re-persisted).  `none` stands for a missing
or unreadable (unpickling error) cache file.  The boolean reports whether the
build ran. -/
def loadWithCache {α σ : Type} (cache : Option (CacheEntry α)) (srcMtime : ℚ)
    (build : σ → α) (src : σ) : α × Bool :=
  match cache with
  | some c => if c.sourceMtime = srcMtime then (c.payload, false) else (build src, true)
  | none => (build src, true)

/-- The power-plant load instantiated with the real per-plant trend builder:
the cached payload is the fitted trend table. -/
def load_power_plants (cache : Option (CacheEntry (List (String × ℚ))))
    (srcMtime : ℚ) (raw : List (String × Series)) : List (String × ℚ) × Bool :=
  loadWithCache cache srcMtime plantTrends raw

/-! ## Engine data model

Coordinates: the Python code converts degrees to radians once
(`np.radians`) and works in radians inside the spatial code; since the factor
pi/180 is irrational, the embedding carries both forms in the query and stores
plant coordinates already in radians.  The equirectangular squared distance
used by the IDW code is transcribed through `idwW` below. -/

/-- One deduplicated Climate TRACE power-plant row (`POWER_PLANTS_DF`).
Optional fields are NaN-able columns. -/
structure Plant where
  sourceType : String
  iso3 : String
  latR : ℚ
  lonR : ℚ
  emissions : ℚ
  capacity : Option ℚ
  ef : Option ℚ
  activity : Option ℚ
  cf : Option ℚ
  trendB : ℚ

/-- One WRI clean-plant row (`RENEW_PLANTS_DF`). -/
structure RenewPlant where
  fuelCat : String
  capacityMW : ℚ
  latR : ℚ
  lonR : ℚ

/-- A `CODECARBON_MIX` country record (fields read by the engine). -/
structure CountryMix where
  carbonIntensity : Option ℚ
  totalTWh : Option ℚ
  fossilTWh : Option ℚ
  coalTWh : Option ℚ
  gasTWh : Option ℚ
  nuclearTWh : Option ℚ
  renewablesTWh : Option ℚ

/-- A `CAN_EMISSIONS` province record (per-fuel percentages, `.get(_, 0)`
defaults already applied). -/
structure CanMix where
  coal : ℚ
  naturalGas : ℚ
  petroleum : ℚ
  biomass : ℚ
  solar : ℚ
  wind : ℚ
  hydro : ℚ
  nuclear : ℚ

/-- A reverse-geocoder hit: ISO-2 country code and lowercased admin1. -/
structure GeoLoc where
  cc : Option String
  admin1 : String

/-- An Electricity Maps zone as seen from the KD-tree: estimated CI and the
optional capacity triple (clean fraction, fossil fraction, coal MW); `none`
models the NaN rows for zones without installed-capacity data. -/
structure EmapsZone where
  ci : ℚ
  cap : Option (ℚ × ℚ × ℚ)

/-- The Electricity Maps centre-point index (`EMAPS_ZONE_TREE` and its
side arrays): nearest zone with great-circle distance in radians, and the
`k = min 3 #zones` nearest `(distance, CI)` pairs. -/
structure EmapsLayer where
  nearest : ℚ → ℚ → ℚ × EmapsZone
  topk : ℚ → ℚ → List (ℚ × ℚ)

/-- The intensity record built by `query_uk_carbon_intensity` from the first
entry of the feed's data array. -/
structure UKData where
  forecast : Option ℚ
  actual : Option ℚ
  indexLabel : Option String

/-- The serialized model artifact (`trained_model.json` / `REGRESSION_MODEL`). -/
structure ModelArtifact where
  features : List String
  scalerMean : List ℚ
  scalerScale : List ℚ
  coefficients : List ℚ
  intercept : ℚ

/-- A query point, in degrees and in radians (`latR = radians latDeg`,
`lonR = radians lonDeg`). -/
structure Query where
  latDeg : ℚ
  lonDeg : ℚ
  latR : ℚ
  lonR : ℚ

/-- The Climate TRACE power layer (`POWER_PLANTS_DF` + `POWER_TREE`):
country of the nearest plant, and the set of plants within the query radius.
`none` at the `Env` level models an unbuilt tree. -/
structure PowerLayer where
  nearestIso : Query → String
  localPlants : Query → List Plant

/-- The WRI renewable layer (`RENEW_PLANTS_DF` + `RENEW_TREE`). -/
structure RenewLayer where
  localRenew : Query → List RenewPlant

/-- The whole loaded engine state plus abstracted external effects.
`zone` models `ZONE_POLY_TREE`/`ZONE_POLY_CI`: polygon containment with the
50 km nearest-polygon fallback, returning the zone CI (both the scalar loop of
`compute_green_score` and the vectorised `batch_zone_ci` implement this same
lookup over the same polygon list).  `live` is the raw network response of the
UK feed: `none` is an exception/timeout, `some entries` a parsed data array.
`sqrtQ` abstracts the float square root used by the `sqrt_zone_ci` feature. -/
structure Env where
  fuelWeights : String → Option ℚ
  mix : String → Option CountryMix
  usaStateCI : String → Option ℚ
  canProvince : String → Option CanMix
  countryTrendPct : String → Option ℚ
  model : Option ModelArtifact
  sqrtQ : ℚ → ℚ
  power : Option PowerLayer
  renewLayer : Option RenewLayer
  zone : Option (Query → Option ℚ)
  emaps : Option EmapsLayer
  geocode : Query → Option GeoLoc
  live : Option (List UKData)

/-- `FUEL_WEIGHTS.get("world_average", 475)`. -/
def worldAvg (env : Env) : ℚ := (env.fuelWeights "world_average").getD 475

/-- Python `x or d` on an optional numeric field read with `.get(_, 0)`:
missing and zero (falsy) both yield the default. -/
def orDefault (x : Option ℚ) (d : ℚ) : ℚ :=
  match x with
  | none => d
  | some v => if v = 0 then d else v

/-- Read of an optional numeric field with `.get(_, 0) or 0`. -/
def q0 (x : Option ℚ) : ℚ := x.getD 0

/-- Squared equirectangular distance in radians between query and a point
(`d_rad²`; the code keeps `d_rad = sqrt` of this). -/
def dSq (q : Query) (latR lonR : ℚ) : ℚ :=
  (latR - q.latR) ^ 2 + (lonR - q.lonR) ^ 2

/-- The IDW weight `1 / max(d_rad·6371, 1)²` expressed through the squared
distance: for `d2 ≥ 0`, `max(sqrt d2 · 6371, 1)² = max(d2 · 6371², 1)`, so the
weight equals `1 / max(d2 · 6371², 1)` and no square root is needed. -/
def idwW (d2 : ℚ) : ℚ := 1 / max (d2 * 6371 ^ 2) 1

/-- Zone-polygon CI lookup (`base_ci` zone block / `batch_zone_ci`). -/
def zoneCI (env : Env) (q : Query) : Option ℚ :=
  match env.zone with
  | none => none
  | some f => f q

/-- `CODECARBON_MIX[iso].get("carbon_intensity", nan)` as an option. -/
def countryMixCI (env : Env) (iso : String) : Option ℚ :=
  match env.mix iso with
  | some m => m.carbonIntensity
  | none => none

/-! ## Country / state resolution (`compute_green_score`, lines 769–800) -/

/-- Country from the nearest power plant, kept only when it has a
`CODECARBON_MIX` entry (lines 774–780). -/
def isoFromNearest (env : Env) (q : Query) : String :=
  match env.power with
  | none => "Unknown"
  | some pl => if (env.mix (pl.nearestIso q)).isSome then pl.nearestIso q else "Unknown"

/-- The ISO-2 → ISO-3 map of the reverse-geocoder fallback (line 790). -/
def isoMapCC (cc : String) : Option String :=
  if cc = "US" then some "USA"
  else if cc = "CA" then some "CAN"
  else if cc = "GB" then some "GBR"
  else if cc = "IE" then some "IRL"
  else if cc = "FR" then some "FRA"
  else if cc = "DE" then some "DEU"
  else none

/-- `US_STATE_ALIASES` normalisation (lines 798–800). -/
def stateAlias (s : String) : String :=
  if s = "northern virginia" then "virginia" else s

/-- Country and state resolution of the scalar path: nearest-plant country,
then the reverse geocoder (unless disabled or failing) fills the country only
when still unknown and always supplies the lowercased admin1 name. -/
def resolveCountryState (env : Env) (q : Query) (disableGeo : Bool) :
    String × String :=
  let iso0 := isoFromNearest env q
  if disableGeo then (iso0, "")
  else
    match env.geocode q with
    | none => (iso0, "")
    | some loc =>
        let iso1 :=
          if iso0 = "Unknown" then
            match loc.cc with
            | some cc => (isoMapCC cc).getD "Unknown"
            | none => iso0
          else iso0
        (iso1, stateAlias loc.admin1)

/-! ## Baseline CI resolution (lines 802–864) -/

/-- The lb→kg conversion factor 0.453592 applied to US state emissions. -/
def usaFactor : ℚ := 453592 / 1000000

/-- CI of a Canadian province from its energy-mix percentages (lines 829–838). -/
def canCI (env : Env) (m : CanMix) : ℚ :=
  m.coal / 100 * ((env.fuelWeights "coal").getD 995)
  + m.naturalGas / 100 * ((env.fuelWeights "natural_gas").getD 743)
  + m.petroleum / 100 * ((env.fuelWeights "petroleum").getD 816)
  + m.biomass / 100 * ((env.fuelWeights "biomass").getD 230)
  + m.solar / 100 * ((env.fuelWeights "solar").getD 48)
  + m.wind / 100 * ((env.fuelWeights "wind").getD 26)
  + m.hydro / 100 * ((env.fuelWeights "hydroelectricity").getD 26)
  + m.nuclear / 100 * ((env.fuelWeights "nuclear").getD 29)

/-- The scalar path's `base_ci` before the world-average floor: zone polygon
first, then the USA state / Canadian province / country-mix chain. -/
def singleBaseCIOpt (env : Env) (q : Query) (iso state : String) : Option ℚ :=
  match zoneCI env q with
  | some z => some z
  | none =>
      if iso = "USA" then
        match env.usaStateCI state with
        | some e => some (e * usaFactor)
        | none => countryMixCI env iso
      else if iso = "CAN" then
        match env.canProvince state with
        | some m => some (canCI env m)
        | none => countryMixCI env iso
      else countryMixCI env iso

/-- `base_ci` with the final `world_avg` fallback (line 863). -/
def singleBaseCI (env : Env) (q : Query) (iso state : String) : ℚ :=
  (singleBaseCIOpt env q iso state).getD (worldAvg env)

/-- The separate `state_ci` feature (lines 845–861): state/province CI where
available, otherwise `base_ci`. -/
def singleStateCI (env : Env) (iso state : String) (baseCI : ℚ) : ℚ :=
  if iso = "USA" then
    match env.usaStateCI state with
    | some e => e * usaFactor
    | none => baseCI
  else if iso = "CAN" then
    match env.canProvince state with
    | some m => canCI env m
    | none => baseCI
  else baseCI

/-! ## Country energy-mix fractions (lines 866–886, identical in the batch
path at lines 1445–1460) -/

/-- The six country-level mix fractions. -/
structure Fracs where
  fossil : ℚ
  clean : ℚ
  coal : ℚ
  gas : ℚ
  nuclear : ℚ
  renew : ℚ

/-- Country fractions from `CODECARBON_MIX`, with the 0.5/0.5 safe defaults
when the country is unknown and the `or 1e-9` guard on the total. -/
def countryFracs (env : Env) (iso : String) : Fracs :=
  match env.mix iso with
  | none => ⟨1/2, 1/2, 0, 0, 0, 0⟩
  | some m =>
      let total := orDefault m.totalTWh (1 / 1000000000)
      ⟨q0 m.fossilTWh / total,
       (q0 m.renewablesTWh + q0 m.nuclearTWh) / total,
       q0 m.coalTWh / total,
       q0 m.gasTWh / total,
       q0 m.nuclearTWh / total,
       q0 m.renewablesTWh / total⟩

/-! ## Scalar-path local plant features (`compute_green_score`, lines 888–956) -/

/-- `capacity.fillna(0)`. -/
def capD0 (p : Plant) : ℚ := p.capacity.getD 0

/-- `FUEL_WEIGHTS.get(fuel_category, world_avg)` for a Climate TRACE plant. -/
def plantFuelCI (env : Env) (p : Plant) : ℚ :=
  (env.fuelWeights (classify_fuel p.sourceType)).getD (worldAvg env)

/-- Total filled capacity of the local plants (`t_cap`). -/
def capSumOf (lp : List Plant) : ℚ := (lp.map capD0).sum

/-- Total emissions of the local plants (`t_emi`). -/
def emiSumOf (lp : List Plant) : ℚ := (lp.map (fun p => p.emissions)).sum

/-- The fossil fuel categories (`fossil_cats`, line 920 / `fossil_set`, 1386). -/
def fossilSet : List String := ["coal", "natural_gas", "petroleum", "fossil"]

/-- The zero-emission categories (`renew_set`, lines 932 / 1383). -/
def renewSet : List String := ["solar", "wind", "hydroelectricity", "nuclear", "geothermal"]

/-- Number of local plants classified into the given category. -/
def countCat (lp : List Plant) (c : String) : ℕ :=
  (lp.filter (fun p => classify_fuel p.sourceType = c)).length

/-- Number of local plants classified into any fossil category
(`sum(fuel_counts.get(c, 0) for c in fossil_cats)`). -/
def countFossil (lp : List Plant) : ℕ :=
  (lp.filter (fun p => fossilSet.contains (classify_fuel p.sourceType))).length

/-- Numerator of the scalar-path IDW estimate: plain inverse-square-distance
weights times per-fuel CI (lines 928–938; note: no capacity factor and only
Climate TRACE plants). -/
def singleIdwNumer (env : Env) (q : Query) (lp : List Plant) : ℚ :=
  (lp.map (fun p => idwW (dSq q p.latR p.lonR) * plantFuelCI env p)).sum

/-- Denominator of the scalar-path IDW estimate. -/
def singleIdwDenom (q : Query) (lp : List Plant) : ℚ :=
  (lp.map (fun p => idwW (dSq q p.latR p.lonR))).sum

/-- `idw_weighted_ci` of the scalar path. -/
def singleIdwCI (env : Env) (q : Query) (lp : List Plant) : ℚ :=
  singleIdwNumer env q lp / singleIdwDenom q lp

/-- A plant's (emission factor, activity) pair when both are present and
activity is positive (`valid_mask`, lines 944–946 / 1555). -/
def efValid (p : Plant) : Option (ℚ × ℚ) :=
  match p.ef, p.activity with
  | some e, some a => if 0 < a then some (e, a) else none
  | _, _ => none

/-- The valid (EF, activity) pairs of the local plants. -/
def efPairs (lp : List Plant) : List (ℚ × ℚ) := lp.filterMap efValid

/-- `local_ef_weighted`: generation-weighted emission factor × 1000. -/
def efWeightedOf (lp : List Plant) : ℚ :=
  if efPairs lp = [] then 0
  else ((efPairs lp).map (fun p => p.1 * p.2)).sum
       / ((efPairs lp).map (fun p => p.2)).sum * 1000

/-- `local_generation_gwh`: total valid activity / 1000. -/
def genGWhOf (lp : List Plant) : ℚ :=
  if efPairs lp = [] then 0 else ((efPairs lp).map (fun p => p.2)).sum / 1000

/-- The finite positive capacity factors of the local plants. -/
def cfValids (lp : List Plant) : List ℚ :=
  lp.filterMap (fun p =>
    match p.cf with
    | some c => if 0 < c then some c else none
    | none => none)

/-- `local_mean_cf`: mean of the valid capacity factors, 0 when none. -/
def meanCFOf (lp : List Plant) : ℚ :=
  if cfValids lp = [] then 0
  else (cfValids lp).sum / ((cfValids lp).length : ℚ)

/-- `capacity.fillna(1.0)` used by the scalar-path trend weights (line 1022). -/
def trendCapS (p : Plant) : ℚ := p.capacity.getD 1

/-- `local_trend_b` of the scalar path: capacity-weighted mean of the local
plants' trend coefficients, weights normalised by `max(Σcaps, 1)`. -/
def singleLocalTrend (lp : List Plant) : ℚ :=
  (lp.map (fun p => p.trendB * trendCapS p)).sum / max ((lp.map trendCapS).sum) 1

/-- Country-trend fallback for `local_trend_b` (lines 1026–1029, identical at
1587–1589): when the local value is 0 and the country has a trend record, use
`pct_change_per_year / 100` (0 when the pct itself is falsy). -/
def trendWithFallback (env : Env) (iso : String) (v : ℚ) : ℚ :=
  if v = 0 then
    match env.countryTrendPct iso with
    | some pct => if pct = 0 then 0 else pct / 100
    | none => v
  else v

/-! ## Electricity Maps features (lines 958–1013, identical in the batch path
at lines 1593–1625) -/

/-- The five eMaps-derived feature values. -/
structure EmapsFeats where
  zoneCIVal : ℚ
  idwCIVal : ℚ
  cleanCap : ℚ
  fossilCap : ℚ
  coalMW : ℚ

/-- Accumulate the 3-nearest-zone IDW sums: distances floored at 1 km,
neighbours beyond 1000 km discarded; returns `(w_total, w_ci)`. -/
def emapsIdwFold (pairs : List (ℚ × ℚ)) : ℚ × ℚ :=
  pairs.foldl
    (fun acc p =>
      let dk := max (p.1 * 6371) 1
      if 1000 < dk then acc
      else (acc.1 + 1 / dk ^ 2, acc.2 + 1 / dk ^ 2 * p.2))
    (0, 0)

/-- The eMaps feature block: polygon zone CI preferred, KD-nearest CI only
within 500 km, capacity fractions only within 500 km and when present, and the
top-3 zone IDW blend. -/
def emapsFeats (env : Env) (q : Query) (polyCI : Option ℚ) : EmapsFeats :=
  match env.emaps with
  | none => ⟨0, 0, 0, 0, 0⟩
  | some L =>
      let nz := L.nearest q.latR q.lonR
      let dkm := nz.1 * 6371
      let zci :=
        match polyCI with
        | some z => z
        | none => if dkm < 500 then nz.2.ci else 0
      let caps :=
        if dkm < 500 then
          match nz.2.cap with
          | some t => t
          | none => (0, 0, 0)
        else (0, 0, 0)
      let acc := emapsIdwFold (L.topk q.latR q.lonR)
      let idw := if 0 < acc.1 then acc.2 / acc.1 else 0
      ⟨zci, idw, caps.1, caps.2.1, caps.2.2⟩

/-! ## Feature vector and model evaluation (lines 1031–1073, 1627–1669) -/

/-- The numeric inputs of `feats_dict`; engineered features are derived inside
`featsLookup`. -/
structure FeatureVals where
  countryCI : ℚ
  epc : ℚ
  pctCoal : ℚ
  pctClean : ℚ
  meanEmi : ℚ
  absLat : ℚ
  idwCI : ℚ
  emapsZoneCI : ℚ
  emapsIdwCI : ℚ
  fossilFrac : ℚ
  cleanFrac : ℚ
  coalFrac : ℚ
  gasFrac : ℚ
  nuclearFrac : ℚ
  renewFrac : ℚ
  efWeighted : ℚ
  genGWh : ℚ
  meanCF : ℚ
  zoneCleanCap : ℚ
  zoneFossilCap : ℚ
  zoneCoalMW : ℚ
  stateCI : ℚ
  countryTrendPct : ℚ
  localTrendB : ℚ

/-- `feats_dict.get(name, 0.0)`: the feature dictionary shared (by shape) by
the scalar and batch paths. -/
def featsLookup (env : Env) (fv : FeatureVals) (name : String) : ℚ :=
  if name = "country_ci" then fv.countryCI
  else if name = "emissions_per_capacity" then fv.epc
  else if name = "local_pct_coal" then fv.pctCoal
  else if name = "local_pct_clean" then fv.pctClean
  else if name = "mean_emissions_per_plant" then fv.meanEmi
  else if name = "abs_lat" then fv.absLat
  else if name = "idw_weighted_ci" then fv.idwCI
  else if name = "country_ci_sq" then fv.countryCI ^ 2 / 1000
  else if name = "emaps_zone_ci" then fv.emapsZoneCI
  else if name = "emaps_idw_ci" then fv.emapsIdwCI
  else if name = "sqrt_zone_ci" then
    (if 0 ≤ fv.emapsZoneCI then env.sqrtQ fv.emapsZoneCI else 0)
  else if name = "zone_x_country" then fv.emapsZoneCI * fv.countryCI / 1000
  else if name = "country_fossil_frac" then fv.fossilFrac
  else if name = "country_clean_frac" then fv.cleanFrac
  else if name = "country_coal_frac" then fv.coalFrac
  else if name = "country_gas_frac" then fv.gasFrac
  else if name = "country_nuclear_frac" then fv.nuclearFrac
  else if name = "country_renew_frac" then fv.renewFrac
  else if name = "ct_grid_ci_est" then fv.epc * fv.fossilFrac
  else if name = "local_ef_weighted" then fv.efWeighted
  else if name = "local_generation_gwh" then fv.genGWh
  else if name = "local_mean_cf" then fv.meanCF
  else if name = "emaps_zone_clean_cap_frac" then fv.zoneCleanCap
  else if name = "emaps_zone_fossil_cap_frac" then fv.zoneFossilCap
  else if name = "emaps_zone_coal_cap_mw" then fv.zoneCoalMW
  else if name = "state_ci" then fv.stateCI
  else if name = "is_gcp" then 0
  else if name = "country_trend_pct" then fv.countryTrendPct
  else if name = "local_trend_x_ci" then fv.localTrendB * fv.countryCI
  else 0

/-- Positional fold of `Σ coef·(x − mean)/scale` over the four model lists. -/
def dotScaled : List ℚ → List ℚ → List ℚ → List ℚ → ℚ
  | x :: xs, m :: ms, s :: ss, c :: cs =>
      c * ((x - m) / s) + dotScaled xs ms ss cs
  | _, _, _, _ => 0

/-- The linear model: standardise the feature vector with the persisted
mean/scale, dot with the coefficients, add the intercept. -/
def modelPredict (m : ModelArtifact) (lookup : String → ℚ) : ℚ :=
  dotScaled (m.features.map lookup) m.scalerMean m.scalerScale m.coefficients
  + m.intercept

/-! ## The scalar pipeline (`compute_green_score`) -/

/-- The scalar path's feature values for one query. -/
def singleFeats (env : Env) (q : Query) (iso state : String) : FeatureVals :=
  let baseCI := singleBaseCI env q iso state
  let fr := countryFracs env iso
  let lp := match env.power with
    | none => []
    | some pl => pl.localPlants q
  let n : ℚ := (lp.length : ℚ)
  let capSum := capSumOf lp
  let emiSum := emiSumOf lp
  let em := emapsFeats env q (zoneCI env q)
  { countryCI := baseCI
  , epc := if lp.isEmpty then 0 else if 0 < capSum then emiSum / capSum else 0
  , pctCoal := if lp.isEmpty then 0 else (countCat lp "coal" : ℚ) / n
  , pctClean := if lp.isEmpty then 0 else max 0 (1 - (countFossil lp : ℚ) / n)
  , meanEmi := if lp.isEmpty then 0 else emiSum / n
  , absLat := |q.latDeg|
  , idwCI := if lp.isEmpty then 0 else singleIdwCI env q lp
  , emapsZoneCI := em.zoneCIVal
  , emapsIdwCI := em.idwCIVal
  , fossilFrac := fr.fossil
  , cleanFrac := fr.clean
  , coalFrac := fr.coal
  , gasFrac := fr.gas
  , nuclearFrac := fr.nuclear
  , renewFrac := fr.renew
  , efWeighted := if lp.isEmpty then 0 else efWeightedOf lp
  , genGWh := if lp.isEmpty then 0 else genGWhOf lp
  , meanCF := if lp.isEmpty then 0 else meanCFOf lp
  , zoneCleanCap := em.cleanCap
  , zoneFossilCap := em.fossilCap
  , zoneCoalMW := em.coalMW
  , stateCI := singleStateCI env iso state baseCI
  , countryTrendPct := (env.countryTrendPct iso).getD 0
  , localTrendB := trendWithFallback env iso
      (if lp.isEmpty then 0 else singleLocalTrend lp) }

/-- `predicted_ci` before the clean-grid bypass: the model score when a model
is loaded, otherwise its `base_ci` initialiser (line 1031). -/
def singleModelCI (env : Env) (q : Query) (iso state : String) : ℚ :=
  match env.model with
  | none => singleBaseCI env q iso state
  | some m => modelPredict m (featsLookup env (singleFeats env q iso state))

/-- `predicted_ci` after the clean-grid bypass (lines 1075–1077): when
`base_ci < 100` and the zone-polygon layer is loaded, the zone baseline is
used directly. -/
def singleBypassCI (env : Env) (q : Query) (iso state : String) : ℚ :=
  if singleBaseCI env q iso state < 100 ∧ (env.zone).isSome = true then
    singleBaseCI env q iso state
  else singleModelCI env q iso state

/-- `query_uk_carbon_intensity` (lines 709–724): every exception (connection
error, timeout, parse error — `net = none`) and an empty data array yield
`None`; otherwise the first entry's intensity record is returned. -/
def query_uk_carbon_intensity (net : Option (List UKData)) : Option UKData :=
  match net with
  | none => none
  | some [] => none
  | some (e :: _) => some e

/-- The live-override step (lines 1081–1088): for GBR with live data enabled,
a reachable feed with a non-null forecast replaces the intensity.  Returns
`(final_ci, live_override_applied, live_details)`. -/
def livePart (env : Env) (iso : String) (disableLive : Bool) (pre : ℚ) :
    ℚ × Bool × Option UKData :=
  if iso = "GBR" ∧ disableLive = false then
    match query_uk_carbon_intensity env.live with
    | some d =>
        match d.forecast with
        | some v => (v, true, some d)
        | none => (pre, false, none)
    | none => (pre, false, none)
  else (pre, false, none)

/-- `round(x, 3)` used when the intensity is placed in the response dict.
(Python rounds ties to even; the two differ only at exact half-thousandths,
which none of the concrete values below hits.) -/
def round3 (x : ℚ) : ℚ := (round (x * 1000) : ℤ) / 1000

/-- The fields of the `compute_green_score` response relevant to the claims:
`finalCI` is `country_carbon_intensity_gCO2_kWh` before its 3-decimal
serialisation rounding, `reportedCI` after it. -/
structure ScoreResult where
  countryIso3 : String
  baseCI : ℚ
  predictedCI : ℚ
  finalCI : ℚ
  reportedCI : ℚ
  liveOverrideApplied : Bool
  liveDetails : Option UKData

/-- `compute_green_score` (lines 754–1142), specialised to the intensity
fields: resolve country/state, resolve `base_ci`, score the model, apply the
clean-grid bypass, clamp at 0, then apply the live override. -/
def compute_green_score (env : Env) (q : Query) (disableLive disableGeo : Bool) :
    ScoreResult :=
  let is0 := resolveCountryState env q disableGeo
  let baseCI := singleBaseCI env q is0.1 is0.2
  let predicted := singleBypassCI env q is0.1 is0.2
  let pre := max 0 predicted
  let l := livePart env is0.1 disableLive pre
  { countryIso3 := is0.1
  , baseCI := baseCI
  , predictedCI := predicted
  , finalCI := l.1
  , reportedCI := round3 l.1
  , liveOverrideApplied := l.2.1
  , liveDetails := l.2.2 }

/-! ## Batch path (`predict_grid_batch`, lines 1291–1694).

Per-point semantics: the loop body at lines 1417–1662 uses only the
pre-computed index query results for its own point, so the batch is the map
of a per-point function over the input array.  Fuel categories are classified
through `_classify_fuel_cached`; on a consistent cache the memoised classifier
agrees with `classify_fuel`, which is used directly here. -/

/-- The projection factor `max(0, 1 + trend_b·Δt)` (lines 1393, 1535). -/
def projFactor (b t : ℚ) : ℚ := max 0 (1 + b * t)

/-- `t_proj = target_year - 2024` (baseline year, line 1392). -/
def deltaT (y : ℤ) : ℚ := (y : ℚ) - 2024

/-- Scale a plant's emissions and activity to the target year (lines
1390–1395); capacity, fuel type and the trend coefficient are untouched. -/
def projectPlant (t : ℚ) (p : Plant) : Plant :=
  { p with
    emissions := p.emissions * projFactor p.trendB t
    activity := p.activity.map (fun a => a * projFactor p.trendB t) }

/-- `all_is_retired`: projected output has reached ≤ 0 (line 1397). -/
def retiredAt (p : Plant) (t : ℚ) : Bool := decide (projFactor p.trendB t ≤ 0)

/-- The non-retired local plants (`active` mask, line 1494). -/
def activePlants (lp : List Plant) (t : ℚ) : List Plant :=
  lp.filter (fun p => !(retiredAt p t))

/-- Batch `local_pct_coal` (lines 1493–1506): with a target year the
denominator counts active (non-retired) fossil-table plants plus nearby
renewables; without one, all local plants plus nearby renewables. -/
def batchPctCoal (ty : Option ℤ) (lp : List Plant) (nRenew : ℕ) : ℚ :=
  match ty with
  | some y =>
      let act := activePlants lp (deltaT y)
      let nTotal := act.length + nRenew
      if 0 < nTotal then (countCat act "coal" : ℚ) / (nTotal : ℚ) else 0
  | none =>
      let nTotal := lp.length + nRenew
      if 0 < nTotal then (countCat lp "coal" : ℚ) / (nTotal : ℚ) else 0

/-- Batch `local_pct_fossil`, same denominators as `batchPctCoal`. -/
def batchPctFossil (ty : Option ℤ) (lp : List Plant) (nRenew : ℕ) : ℚ :=
  match ty with
  | some y =>
      let act := activePlants lp (deltaT y)
      let nTotal := act.length + nRenew
      if 0 < nTotal then (countFossil act : ℚ) / (nTotal : ℚ) else 0
  | none =>
      let nTotal := lp.length + nRenew
      if 0 < nTotal then (countFossil lp : ℚ) / (nTotal : ℚ) else 0

/-- Batch IDW weight of a Climate TRACE plant (lines 1533–1545): inverse
square distance times capacity, the capacity additionally scaled by the
trend projection when a target year is supplied. -/
def batchPlantWeight (q : Query) (ty : Option ℤ) (p : Plant) : ℚ :=
  match ty with
  | none => idwW (dSq q p.latR p.lonR) * capD0 p
  | some y => idwW (dSq q p.latR p.lonR) * (capD0 p * projFactor p.trendB (deltaT y))

/-- IDW weight of a WRI clean plant: inverse square distance times capacity
(lines 1522–1527). -/
def renewWeight (q : Query) (r : RenewPlant) : ℚ :=
  idwW (dSq q r.latR r.lonR) * r.capacityMW

/-- `FUEL_WEIGHTS.get(fuel_cat, 0)` for a WRI clean plant (line 1354). -/
def renewCI (env : Env) (r : RenewPlant) : ℚ := (env.fuelWeights r.fuelCat).getD 0

/-- Batch `idw_weighted_ci` over the combined fossil + clean weight vectors
(lines 1514–1550). -/
def batchIdwCI (env : Env) (q : Query) (ty : Option ℤ) (lp : List Plant)
    (rn : List RenewPlant) : ℚ :=
  let ws := lp.map (batchPlantWeight q ty) ++ rn.map (renewWeight q)
  let cs := lp.map (plantFuelCI env) ++ rn.map (renewCI env)
  if 0 < ws.sum then ((ws.zip cs).map (fun p => p.1 * p.2)).sum / ws.sum else 0

/-- Renewables-only IDW used when no fossil-table plant is in radius
(lines 1571–1584). -/
def rnOnlyIdw (env : Env) (q : Query) (rn : List RenewPlant) : ℚ :=
  let ws := rn.map (renewWeight q)
  if 0 < ws.sum then
    ((ws.zip (rn.map (renewCI env))).map (fun p => p.1 * p.2)).sum / ws.sum
  else 0

/-- Total nearby WRI capacity (`renew_cap_nearby`). -/
def rnCapOf (rn : List RenewPlant) : ℚ := (rn.map (fun r => r.capacityMW)).sum

/-- Batch `emissions_per_capacity` (lines 1478–1480 then 1509–1512): first
computed over fossil-table capacity, then recomputed over the combined
fossil + renewable capacity when that is positive. -/
def batchEpc (lp : List Plant) (rnCap : ℚ) : ℚ :=
  let e1 := if 0 < capSumOf lp then emiSumOf lp / capSumOf lp else 0
  if 0 < capSumOf lp + rnCap then emiSumOf lp / (capSumOf lp + rnCap) else e1

/-- `np.where(isfinite(caps) ∧ caps > 0, caps, 1)` on the filled capacities
(batch trend weights, line 1567). -/
def trendCapB (p : Plant) : ℚ := if 0 < capD0 p then capD0 p else 1

/-- Batch `local_trend_b` (lines 1566–1569). -/
def batchLocalTrend (lp : List Plant) : ℚ :=
  (lp.map (fun p => p.trendB * trendCapB p)).sum / max ((lp.map trendCapB).sum) 1

/-- The batch path's feature values for one point: country from the nearest
plant only (no reverse geocoder), `base_ci` from polygon zone then country
then world average (no state branch), local features over the
projected plant rows, `state_ci` proxied by `base_ci` (line 1443). -/
def batchFeats (env : Env) (q : Query) (ty : Option ℤ) : FeatureVals :=
  let iso := isoFromNearest env q
  let zci := zoneCI env q
  let baseCI :=
    match zci with
    | some z => z
    | none => (countryMixCI env iso).getD (worldAvg env)
  let fr := countryFracs env iso
  let lp0 := match env.power with
    | none => []
    | some pl => pl.localPlants q
  let lp := match ty with
    | none => lp0
    | some y => lp0.map (projectPlant (deltaT y))
  let rn := match env.renewLayer with
    | none => []
    | some rl => rl.localRenew q
  let rnBranch := env.renewLayer.isSome = true ∧ rn.isEmpty = false
  let n : ℚ := (lp.length : ℚ)
  let em := emapsFeats env q zci
  { countryCI := baseCI
  , epc := if lp.isEmpty then 0 else batchEpc lp (rnCapOf rn)
  , pctCoal := if lp.isEmpty then 0 else batchPctCoal ty lp rn.length
  , pctClean :=
      if lp.isEmpty then (if rnBranch then 1 else 0)
      else max 0 (1 - batchPctFossil ty lp rn.length)
  , meanEmi := if lp.isEmpty then 0 else emiSumOf lp / n
  , absLat := |q.latDeg|
  , idwCI :=
      if lp.isEmpty then (if rnBranch then rnOnlyIdw env q rn else 0)
      else batchIdwCI env q ty lp rn
  , emapsZoneCI := em.zoneCIVal
  , emapsIdwCI := em.idwCIVal
  , fossilFrac := fr.fossil
  , cleanFrac := fr.clean
  , coalFrac := fr.coal
  , gasFrac := fr.gas
  , nuclearFrac := fr.nuclear
  , renewFrac := fr.renew
  , efWeighted := if lp.isEmpty then 0 else efWeightedOf lp
  , genGWh := if lp.isEmpty then 0 else genGWhOf lp
  , meanCF := if lp.isEmpty then 0 else meanCFOf lp
  , zoneCleanCap := em.cleanCap
  , zoneFossilCap := em.fossilCap
  , zoneCoalMW := em.coalMW
  , stateCI := baseCI
  , countryTrendPct := (env.countryTrendPct iso).getD 0
  , localTrendB := trendWithFallback env iso
      (if lp.isEmpty then 0 else batchLocalTrend lp) }

/-- One entry of the batch intensity array (`ci_out[idx]`): the model score
(world average when no model features are loaded), clamped at 0, then
overwritten by the zone baseline wherever the zone resolved below
100 gCO₂/kWh (lines 1666–1681). -/
def predict_grid_batch_point (env : Env) (q : Query) (ty : Option ℤ) : ℚ :=
  let pred :=
    match env.model with
    | some m =>
        if m.features.isEmpty then worldAvg env
        else modelPredict m (featsLookup env (batchFeats env q ty))
    | none => worldAvg env
  let clamped := max pred 0
  match zoneCI env q with
  | some z => if z < 100 then z else clamped
  | none => clamped

/-- `predict_grid_batch`: the intensity array for a list of query points. -/
def predict_grid_batch (env : Env) (qs : List Query) (ty : Option ℤ) : List ℚ :=
  qs.map (fun q => predict_grid_batch_point env q ty)

/-! ## The spec's IDW weighting, for comparison (claim C6) -/

/-- Per the spec's words: each in-radius asset contributes with weight
`capacity / distance²` (distance floored at 1 km).  Written from the spec for
comparison with the scalar path's actual weight `1 / distance²`. -/
def specIdwWeight (q : Query) (p : Plant) : ℚ :=
  capD0 p * idwW (dSq q p.latR p.lonR)

/-- Per the spec's words: the IDW intensity estimate under capacity-weighted
inverse-square-distance weights. -/
def specIdwCI (env : Env) (q : Query) (lp : List Plant) : ℚ :=
  (lp.map (fun p => specIdwWeight q p * plantFuelCI env p)).sum
  / (lp.map (fun p => specIdwWeight q p)).sum

/-! ## Concrete environments used by the witnesses and counterexamples -/

/-- A small `FUEL_WEIGHTS` table. -/
def fwBase : String → Option ℚ := fun s =>
  if s = "world_average" then some 475
  else if s = "coal" then some 995
  else if s = "solar" then some 48
  else none

/-- A test query point; plant coordinates below coincide with it, so every
IDW distance is floored to 1 km. -/
def qTest : Query := ⟨10, 20, 0, 0⟩

/-- A coal plant at the query point: capacity 1 MW, emissions 100 t. -/
def plantCoal : Plant :=
  ⟨"coal", "AAA", 0, 0, 100, some 1, none, none, none, 0⟩

/-- A solar plant at the query point: capacity 3 MW, no emissions. -/
def plantSolar : Plant :=
  ⟨"solar", "AAA", 0, 0, 0, some 3, none, none, none, 0⟩

/-- A coal plant with a −10 %/year trend, used by the projection witnesses. -/
def plantDecl : Plant :=
  ⟨"coal", "AAA", 0, 0, 100, some 1, none, none, none, -1/10⟩

/-- A model that reproduces the `idw_weighted_ci` feature verbatim
(single feature, identity scaler, unit coefficient, zero intercept). -/
def modelIdw : ModelArtifact := ⟨["idw_weighted_ci"], [0], [1], [1], 0⟩

/-- Environment with two plants of unequal capacity in radius, no zone
polygons, no renewables, no live feed; the model passes `idw_weighted_ci`
through, exposing the different IDW weighting of the two paths. -/
def envDiv : Env :=
  { fuelWeights := fwBase
  , mix := fun _ => none
  , usaStateCI := fun _ => none
  , canProvince := fun _ => none
  , countryTrendPct := fun _ => none
  , model := some modelIdw
  , sqrtQ := fun _ => 0
  , power := some ⟨fun _ => "AAA", fun _ => [plantCoal, plantSolar]⟩
  , renewLayer := none
  , zone := none
  , emaps := none
  , geocode := fun _ => none
  , live := none }

/-- Environment whose zone layer resolves every point to a clean zone of
40 gCO₂/kWh, with no power layer and no live feed. -/
def envClean : Env :=
  { fuelWeights := fwBase
  , mix := fun _ => none
  , usaStateCI := fun _ => none
  , canProvince := fun _ => none
  , countryTrendPct := fun _ => none
  , model := some modelIdw
  , sqrtQ := fun _ => 0
  , power := none
  , renewLayer := none
  , zone := some (fun _ => some 40)
  , emaps := none
  , geocode := fun _ => none
  , live := none }

/-- A `CODECARBON_MIX` record for Great Britain (only its presence matters,
plus a stand-in country intensity). -/
def mixGBR : CountryMix := ⟨some 250, none, none, none, none, none, none⟩

/-- A live-feed data entry with forecast 120 gCO₂/kWh. -/
def ukEntry : UKData := ⟨some 120, none, none⟩

/-- Environment resolving to GBR inside a clean zone (50 gCO₂/kWh) with a
reachable live feed forecasting 120. -/
def envLive : Env :=
  { fuelWeights := fwBase
  , mix := fun s => if s = "GBR" then some mixGBR else none
  , usaStateCI := fun _ => none
  , canProvince := fun _ => none
  , countryTrendPct := fun _ => none
  , model := none
  , sqrtQ := fun _ => 0
  , power := some ⟨fun _ => "GBR", fun _ => []⟩
  , renewLayer := none
  , zone := some (fun _ => some 50)
  , emaps := none
  , geocode := fun _ => none
  , live := some [ukEntry] }

/-- A live-feed entry carrying a (pathological) negative forecast. -/
def ukEntryNeg : UKData := ⟨some (-5), none, none⟩

/-- `envLive` with the negative live forecast. -/
def envNeg : Env :=
  { fuelWeights := fwBase
  , mix := fun s => if s = "GBR" then some mixGBR else none
  , usaStateCI := fun _ => none
  , canProvince := fun _ => none
  , countryTrendPct := fun _ => none
  , model := none
  , sqrtQ := fun _ => 0
  , power := some ⟨fun _ => "GBR", fun _ => []⟩
  , renewLayer := none
  , zone := some (fun _ => some 50)
  , emaps := none
  , geocode := fun _ => none
  , live := some [ukEntryNeg] }

/-- Zone layers that only ever report non-negative intensities.  The loader
(`load_emaps_zones`, line 536) stores a zone CI only when it is positive, so
every loadable environment satisfies this. -/
def ZoneNonneg (env : Env) : Prop := ∀ q z, zoneCI env q = some z → 0 ≤ z

/-- A coal plant whose trend projects it to zero output by 2030 (trend −1/yr),
used by the retirement witness. -/
def plantRetired : Plant :=
  ⟨"coal", "AAA", 0, 0, 100, some 1, none, some 50, none, -1⟩

/-- The zone-CI accumulation of `load_emaps_zones` (lines 522–535): sum of
`ratio × emission factor` over the mix entries with positive ratio. -/
def zoneMixCI (entries : List (ℚ × ℚ)) : ℚ :=
  (entries.map (fun p => if 0 < p.1 then p.1 * p.2 else 0)).sum

/-- The loader keeps a zone's CI only when it is positive (line 536),
which is what grounds `ZoneNonneg` for every loadable environment. -/
def storeZoneCI (ci : ℚ) : Option ℚ := if 0 < ci then some ci else none

/-! ## Helper lemmas -/

/-- The clip to `±MAX_B` bounds the absolute value by `MAX_B`. -/
theorem abs_clip_le (x : ℚ) : |clip (-MAX_B) MAX_B x| ≤ MAX_B := by
  unfold clip
  rw [abs_le]
  refine ⟨le_min (le_max_right _ _) ?_, min_le_right _ _⟩
  unfold MAX_B
  norm_num

/-- Clipping zero to `±MAX_B` gives zero. -/
theorem clip_zero : clip (-MAX_B) MAX_B 0 = 0 := by
  unfold clip MAX_B
  rw [max_eq_left (by norm_num), min_eq_left (by norm_num)]

/-- Every coefficient stored in a fitted trend table is a `plantTrendB`. -/
theorem plantTrends_find {tbl : List (String × Series)} {name : String} {b : ℚ}
    (h : assocFind (plantTrends tbl) name = some b) :
    ∃ ps : Series, b = plantTrendB ps := by
  induction tbl with
  | nil => simp [plantTrends, assocFind] at h
  | cons hd tl ih =>
      obtain ⟨k, ser⟩ := hd
      simp only [plantTrends, List.map_cons] at h ih
      unfold assocFind at h
      split at h
      · exact ⟨ser, (Option.some.inj h).symm⟩
      · exact ih h

/-- With at most one valid year the slope numerator vanishes: the single
valid cell equals the row's nan-mean, so its centred value is zero. -/
theorem trendNumer_of_le_one {ps : Series} (h : validCount ps ≤ 1) :
    trendNumer ps = 0 := by
  rcases Nat.le_one_iff_eq_zero_or_eq_one.mp h with h0 | h1
  · have hl : validList ps = [] := List.length_eq_zero.mp h0
    simp [trendNumer, hl]
  · obtain ⟨a, ha⟩ := List.length_eq_one.mp h1
    have he : eMean ps = a.2 := by
      simp [eMean, validCount, ha]
    simp [trendNumer, ha, he]

/-- Cache-consistent lookups return the classifier's value. -/
theorem fuelCacheGet_consistent {cache : List (String × String)} {s v : String}
    (hw : FuelCacheConsistent cache) (h : fuelCacheGet cache s = some v) :
    v = classify_fuel s := by
  induction cache with
  | nil => simp [fuelCacheGet] at h
  | cons hd tl ih =>
      obtain ⟨k, w⟩ := hd
      unfold fuelCacheGet at h
      split at h
      case isTrue hk =>
        have hw0 : w = classify_fuel k := hw (k, w) (List.mem_cons_self _ _)
        rw [← (Option.some.inj h), hw0, hk]
      case isFalse hk =>
        exact ih (fun p hp => hw p (List.mem_cons_of_mem _ hp)) h

/-! ## C4 -/

/-- C4: every trend coefficient attached to an asset row is the normalised
slope (raw slope over the near-zero-floored intercept) clipped to
`±MAX_B = ±0.15` before attachment, so its absolute value is at most 0.15;
assets without a fitted trend get 0, also within the bound. -/
theorem C4_trend_clamped (tbl : List (String × Series)) (name : String) :
    |attachedTrendB tbl name| ≤ MAX_B := by
  unfold attachedTrendB
  cases h : assocFind (plantTrends tbl) name with
  | none =>
      simp only [Option.getD_none, abs_zero]
      unfold MAX_B
      norm_num
  | some b =>
      obtain ⟨ps, rfl⟩ := plantTrends_find h
      simpa using abs_clip_le (bNorm ps)

/-! ## C5 -/

/-- C5: an asset whose series has fewer than 2 valid (complete) years gets
trend coefficient exactly 0 — with one valid year the centred numerator is
identically zero, with none the positive-denominator guard fires; no other
asset's data is consulted (`plantTrendB` reads only the plant's own row). -/
theorem C5_few_valid_years_zero (ps : Series) (h : validCount ps ≤ 1) :
    plantTrendB ps = 0 := by
  have hn := trendNumer_of_le_one h
  have hb : bRaw ps = 0 := by
    unfold bRaw
    rw [hn]
    simp [zero_div]
  unfold plantTrendB bNorm
  rw [hb, zero_div, clip_zero]

/-- Witness for C5: a series with one missing and one valid year (one valid
year in total) gets coefficient 0. -/
theorem C5_witness :
    validCount [((-1 : ℚ), (none : Option ℚ)), (0, some 5)] ≤ 1 ∧
    plantTrendB [((-1 : ℚ), (none : Option ℚ)), (0, some 5)] = 0 :=
  ⟨by simp [validCount, validList],
   C5_few_valid_years_zero _ (by simp [validCount, validList])⟩

/-! ## C9 -/

/-- C9: the loader's cache protocol — a cache entry whose stored source
modification time equals the current one is served without rebuilding; a
mismatched (stale) entry is never served: the table is rebuilt from source.
(A missing/unreadable cache also rebuilds.) -/
theorem C9_cache_protocol (cache : Option (CacheEntry (List (String × ℚ))))
    (srcMtime : ℚ) (raw : List (String × Series)) :
    (∀ c, cache = some c → c.sourceMtime = srcMtime →
      load_power_plants cache srcMtime raw = (c.payload, false)) ∧
    (∀ c, cache = some c → c.sourceMtime ≠ srcMtime →
      load_power_plants cache srcMtime raw = (plantTrends raw, true)) ∧
    (cache = none → load_power_plants cache srcMtime raw = (plantTrends raw, true)) := by
  refine ⟨?_, ?_, ?_⟩
  · rintro c rfl he
    simp [load_power_plants, loadWithCache, he]
  · rintro c rfl he
    simp [load_power_plants, loadWithCache, he]
  · rintro rfl
    simp [load_power_plants, loadWithCache]

/-- Witness for C9: a matching key serves the cached table without a rebuild;
bumping the source modification time forces the rebuild. -/
theorem C9_witness :
    load_power_plants (some ⟨5, [("p", 1/10)]⟩) 5 [] = ([("p", 1/10)], false) ∧
    load_power_plants (some ⟨5, [("p", 1/10)]⟩) 6 [] = (plantTrends [], true) :=
  ⟨(C9_cache_protocol (some ⟨5, [("p", 1/10)]⟩) 5 []).1 _ rfl rfl,
   (C9_cache_protocol (some ⟨5, [("p", 1/10)]⟩) 6 []).2.1 _ rfl (by norm_num)⟩

/-! ## C10 -/

/-- Counterexample for C10: the label made of the words biomass and gas is a
biomass label (it contains the biomass keyword), yet the ordered keyword
matching classifies it as natural gas, not fossil — earlier keyword lists take
precedence over the biomass rule. -/
theorem C10_counterexample :
    containsSub (lowerStr "biomass gas") "biomass" = true ∧
    classify_fuel "biomass gas" = "natural_gas" ∧
    ("natural_gas" : String) ≠ "fossil" := by decide

/-- C10 (amended): the classifier is total with exactly the nine categories;
a label matching none of the keyword lists maps to the fossil default; a
biomass-keyword label maps to fossil provided it matches no earlier keyword
list; and on a consistent cache the memoised variant returns exactly
`classify_fuel` and preserves consistency. -/
theorem C10_amended :
    (∀ s : String, classify_fuel s ∈ fuelCategories) ∧
    (∀ s : String, matchesSomeKeyword s = false → classify_fuel s = "fossil") ∧
    (∀ s : String, matchesAny (lowerStr s) bioKeys = true →
      matchesAny (lowerStr s) coalKeys = false →
      matchesAny (lowerStr s) gasKeys = false →
      matchesAny (lowerStr s) oilKeys = false →
      matchesAny (lowerStr s) solarKeys = false →
      matchesAny (lowerStr s) windKeys = false →
      matchesAny (lowerStr s) hydroKeys = false →
      matchesAny (lowerStr s) nuclearKeys = false →
      matchesAny (lowerStr s) geoKeys = false →
      classify_fuel s = "fossil") ∧
    (∀ cache s, FuelCacheConsistent cache →
      (classify_fuel_cached cache s).1 = classify_fuel s ∧
      FuelCacheConsistent (classify_fuel_cached cache s).2) := by
  refine ⟨?_, ?_, ?_, ?_⟩
  · intro s
    simp only [classify_fuel]
    split_ifs <;> simp [fuelCategories]
  · intro s h
    simp only [classify_fuel]
    split_ifs with c1 c2 c3 c4 c5 c6 c7 c8 c9 <;>
      first
        | rfl
        | simp_all [matchesSomeKeyword]
  · intro s hb h1 h2 h3 h4 h5 h6 h7 h8
    simp only [classify_fuel]
    simp [hb, h1, h2, h3, h4, h5, h6, h7, h8]
  · intro cache s hw
    unfold classify_fuel_cached
    cases h : fuelCacheGet cache s with
    | some v => exact ⟨fuelCacheGet_consistent hw h, hw⟩
    | none =>
        refine ⟨rfl, ?_⟩
        intro p hp
        rcases List.mem_cons.mp hp with rfl | hmem
        · rfl
        · exact hw p hmem

/-- Witness for C10 (amended): concrete instances of each clause, with the
empty start-up cache. -/
theorem C10_witness :
    classify_fuel "Coal Plant" ∈ fuelCategories ∧
    classify_fuel "zzz" = "fossil" ∧
    (classify_fuel_cached [] "wind turbine").1 = classify_fuel "wind turbine" ∧
    FuelCacheConsistent (classify_fuel_cached [] "wind turbine").2 :=
  ⟨C10_amended.1 "Coal Plant",
   C10_amended.2.1 "zzz" (by decide),
   (C10_amended.2.2.2 [] "wind turbine" (fun p hp => absurd hp (List.not_mem_nil p))).1,
   (C10_amended.2.2.2 [] "wind turbine" (fun p hp => absurd hp (List.not_mem_nil p))).2⟩

/-! ## C6 and C7 -/

/-- The IDW weight is always strictly positive (the floored denominator is at
least 1). -/
theorem idwW_pos (d2 : ℚ) : 0 < idwW d2 := by
  unfold idwW
  exact div_pos one_pos (lt_of_lt_of_le one_pos (le_max_right _ _))

/-- Counterexample for C6: in the scalar path the in-radius assets are
weighted by plain `1/d²` — with two co-located plants of capacities 1 and 3,
the scalar IDW estimate is the unweighted mean (1043/2) while the weight
`capacity/d²` claimed for it gives 1139/4; the two differ. -/
theorem C6_counterexample :
    singleIdwCI envDiv qTest [plantCoal, plantSolar] = 1043/2 ∧
    specIdwCI envDiv qTest [plantCoal, plantSolar] = 1139/4 ∧
    ((1043 : ℚ)/2) ≠ 1139/4 := by
  have hcCoal : classify_fuel "coal" = "coal" := by decide
  have hcSolar : classify_fuel "solar" = "solar" := by decide
  refine ⟨?_, ?_, by norm_num⟩ <;>
    simp [singleIdwCI, singleIdwNumer, singleIdwDenom, specIdwCI, specIdwWeight,
      idwW, dSq, capD0, plantFuelCI, plantCoal, plantSolar, envDiv, qTest,
      fwBase, worldAvg, hcCoal, hcSolar] <;>
    norm_num [max_def]

/-- C6 (amended): in the batch path an asset's unprojected IDW weight is
`capacity / flooredDistance²`, and with a target year the weight gains the
factor `max(0, 1 + trend·Δt)`, so an asset with a negative trend, positive
capacity and positive fuel CI, projected forward, contributes strictly less to
the IDW numerator than without projection.  (The scalar path, as shown by the
counterexample, uses `1/d²` without capacity and without the WRI clean
plants.) -/
theorem C6_idw_projection (env : Env) (q : Query) (y : ℤ) (p : Plant)
    (hb : p.trendB < 0) (hy : (2024 : ℤ) < y) (hcap : 0 < capD0 p)
    (hci : 0 < plantFuelCI env p) :
    batchPlantWeight q none p = capD0 p * idwW (dSq q p.latR p.lonR) ∧
    batchPlantWeight q (some y) p * plantFuelCI env p
      < batchPlantWeight q none p * plantFuelCI env p := by
  constructor
  · simp [batchPlantWeight, mul_comm]
  · have hw : 0 < idwW (dSq q p.latR p.lonR) := idwW_pos _
    have ht : (0:ℚ) < (y:ℚ) - 2024 := by
      have : (2024:ℚ) < (y:ℚ) := by exact_mod_cast hy
      linarith
    have hf : projFactor p.trendB (deltaT y) < 1 := by
      unfold projFactor deltaT
      have hneg : p.trendB * ((y:ℚ) - 2024) < 0 := mul_neg_of_neg_of_pos hb ht
      exact max_lt one_pos (by linarith)
    unfold batchPlantWeight
    have key : idwW (dSq q p.latR p.lonR) * (capD0 p * projFactor p.trendB (deltaT y))
        < idwW (dSq q p.latR p.lonR) * capD0 p := by
      calc idwW (dSq q p.latR p.lonR) * (capD0 p * projFactor p.trendB (deltaT y))
          = idwW (dSq q p.latR p.lonR) * capD0 p * projFactor p.trendB (deltaT y) := by
            ring
        _ < idwW (dSq q p.latR p.lonR) * capD0 p * 1 := by
            exact (mul_lt_mul_left (mul_pos hw hcap)).mpr hf
        _ = idwW (dSq q p.latR p.lonR) * capD0 p := mul_one _
    exact (mul_lt_mul_right hci).mpr key

/-- Witness for C6 (amended): the declining coal plant (trend −10 %/yr,
capacity 1, fuel CI 995) projected to 2029 contributes strictly less than
unprojected. -/
theorem C6_witness :
    plantDecl.trendB < 0 ∧
    batchPlantWeight qTest (some 2029) plantDecl * plantFuelCI envDiv plantDecl
      < batchPlantWeight qTest none plantDecl * plantFuelCI envDiv plantDecl :=
  ⟨by norm_num [plantDecl],
   (C6_idw_projection envDiv qTest 2029 plantDecl (by norm_num [plantDecl])
      (by norm_num) (by norm_num [capD0, plantDecl]) (by decide)).2⟩

/-- C7: with a target year, every plant's emissions (and present activity)
are the original values times `max(0, 1 + trend·Δt)` before any aggregation;
a retired plant (projection factor ≤ 0, hence = 0) has projected emissions 0,
projected activity 0, and is excluded from both the numerator and the
denominator of the fuel-mix fractions: inserting it changes neither
`local_pct_coal` nor `local_pct_fossil`. -/
theorem C7_retired_excluded (y : ℤ) (p : Plant) (lp : List Plant) (rn : ℕ)
    (hret : projFactor p.trendB (deltaT y) ≤ 0) :
    (∀ l : List Plant,
      emiSumOf (l.map (projectPlant (deltaT y))) =
        (l.map (fun r => r.emissions * projFactor r.trendB (deltaT y))).sum) ∧
    (projectPlant (deltaT y) p).emissions = 0 ∧
    (∀ a, p.activity = some a → (projectPlant (deltaT y) p).activity = some 0) ∧
    batchPctCoal (some y) (p :: lp) rn = batchPctCoal (some y) lp rn ∧
    batchPctFossil (some y) (p :: lp) rn = batchPctFossil (some y) lp rn := by
  have hf0 : projFactor p.trendB (deltaT y) = 0 :=
    le_antisymm hret (le_max_left 0 _)
  have hr : retiredAt p (deltaT y) = true := by
    simp [retiredAt, hret]
  refine ⟨?_, ?_, ?_, ?_, ?_⟩
  · intro l
    unfold emiSumOf
    rw [List.map_map]
    have hfun : ((fun r : Plant => r.emissions) ∘ projectPlant (deltaT y)) =
        fun r : Plant => r.emissions * projFactor r.trendB (deltaT y) := by
      funext r
      simp [projectPlant, Function.comp]
    rw [hfun]
  · simp [projectPlant, hf0]
  · intro a ha
    simp [projectPlant, ha, hf0]
  · simp [batchPctCoal, activePlants, List.filter_cons, hr]
  · simp [batchPctFossil, activePlants, List.filter_cons, hr]

/-- Witness for C7: the plant with trend −1/yr is retired by 2030 — zero
projected emissions and no effect on the coal fraction. -/
theorem C7_witness :
    projFactor plantRetired.trendB (deltaT 2030) ≤ 0 ∧
    (projectPlant (deltaT 2030) plantRetired).emissions = 0 ∧
    batchPctCoal (some 2030) [plantRetired, plantCoal] 0
      = batchPctCoal (some 2030) [plantCoal] 0 :=
  ⟨by norm_num [projFactor, deltaT, plantRetired, max_def],
   (C7_retired_excluded 2030 plantRetired [plantCoal] 0
      (by norm_num [projFactor, deltaT, plantRetired, max_def])).2.1,
   (C7_retired_excluded 2030 plantRetired [plantCoal] 0
      (by norm_num [projFactor, deltaT, plantRetired, max_def])).2.2.2.1⟩

/-! ## C8 -/

/-- When the live override did not fire, the final intensity is the
pre-override (clamped model) value. -/
theorem livePart_not_applied (env : Env) (iso : String) (dl : Bool) (pre : ℚ) :
    (livePart env iso dl pre).2.1 = false → (livePart env iso dl pre).1 = pre := by
  unfold livePart
  split
  · cases hq : query_uk_carbon_intensity env.live with
    | none => intro _; rfl
    | some d =>
        intro h
        cases hf : d.forecast with
        | none => simp [hf]
        | some v => simp [hf] at h
  · intro _; rfl

/-- C8: for a query resolved to the live-data country (GBR) with the live API
enabled, a reachable feed whose first entry carries a forecast makes `predict`
return exactly that forecast, with the override flagged and the details
attached; when the feed call fails (exception, timeout, empty data — the
query function returns `None` and never raises), `predict` returns the
clamped model value and the live-override detail is absent. -/
theorem C8_live_override (env : Env) (q : Query) (dg : Bool) :
    ((compute_green_score env q false dg).countryIso3 = "GBR" →
      ∀ d v, query_uk_carbon_intensity env.live = some d → d.forecast = some v →
        (compute_green_score env q false dg).finalCI = v ∧
        (compute_green_score env q false dg).liveOverrideApplied = true ∧
        (compute_green_score env q false dg).liveDetails = some d) ∧
    (query_uk_carbon_intensity env.live = none →
      (compute_green_score env q false dg).finalCI =
        max 0 ((compute_green_score env q false dg).predictedCI) ∧
      (compute_green_score env q false dg).liveOverrideApplied = false ∧
      (compute_green_score env q false dg).liveDetails = none) := by
  constructor
  · intro hGBR d v hq hf
    simp only [compute_green_score] at hGBR ⊢
    rw [hGBR]
    simp [livePart, hq, hf]
  · intro hnone
    simp only [compute_green_score]
    refine ⟨?_, ?_, ?_⟩ <;> simp [livePart, hnone]

/-- Witness for C8: on `envLive` (GBR, feed forecasting 120) the returned
intensity is the live value with the override flagged; on `envClean` (feed
unreachable) the clamped model value is returned with no live detail. -/
theorem C8_witness :
    (compute_green_score envLive qTest false false).finalCI = 120 ∧
    (compute_green_score envLive qTest false false).liveOverrideApplied = true ∧
    (compute_green_score envClean qTest false false).finalCI =
      max 0 ((compute_green_score envClean qTest false false).predictedCI) ∧
    (compute_green_score envClean qTest false false).liveDetails = none := by
  have hGBR : (compute_green_score envLive qTest false false).countryIso3 = "GBR" := by
    simp [compute_green_score, resolveCountryState, isoFromNearest, envLive]
  refine ⟨?_, ?_, ?_, ?_⟩
  · exact ((C8_live_override envLive qTest false).1 hGBR ukEntry 120 rfl rfl).1
  · exact ((C8_live_override envLive qTest false).1 hGBR ukEntry 120 rfl rfl).2.1
  · exact ((C8_live_override envClean qTest false).2 rfl).1
  · exact ((C8_live_override envClean qTest false).2 rfl).2.2

/-! ## Clean-zone override (C1, C2, C3) -/

/-- Rounding to three decimals preserves non-negativity. -/
theorem round3_nonneg {x : ℚ} (h : 0 ≤ x) : 0 ≤ round3 x := by
  unfold round3
  have hr : (0:ℤ) ≤ round (x * 1000) := by
    rw [round_eq]
    exact Int.floor_nonneg.mpr (by linarith)
  have hq : (0:ℚ) ≤ ((round (x * 1000) : ℤ) : ℚ) := by exact_mod_cast hr
  exact div_nonneg hq (by norm_num)

/-- The reported (3-decimal) intensity is the rounding of the final one. -/
theorem reported_eq_round3 (env : Env) (q : Query) (dl dg : Bool) :
    (compute_green_score env q dl dg).reportedCI =
      round3 ((compute_green_score env q dl dg).finalCI) := by
  simp only [compute_green_score]

/-- A batch entry whose zone resolved below 100 is exactly the zone CI. -/
theorem batch_cleanZone (env : Env) (q : Query) (ty : Option ℤ)
    (zf : Query → Option ℚ) (z : ℚ)
    (hz : env.zone = some zf) (hq : zf q = some z) (hlt : z < 100) :
    predict_grid_batch_point env q ty = z := by
  have hzc : zoneCI env q = some z := by simp [zoneCI, hz, hq]
  unfold predict_grid_batch_point
  simp [hzc, hlt]

/-- The scalar final intensity inside a clean zone, when the live override
did not fire, is exactly the zone CI. -/
theorem single_cleanZone (env : Env) (q : Query) (zf : Query → Option ℚ) (z : ℚ)
    (dl dg : Bool) (hz : env.zone = some zf) (hq : zf q = some z)
    (hlt : z < 100) (hnn : 0 ≤ z)
    (hlive : (compute_green_score env q dl dg).liveOverrideApplied = false) :
    (compute_green_score env q dl dg).finalCI = z := by
  have hzc : zoneCI env q = some z := by simp [zoneCI, hz, hq]
  have hbase : ∀ iso st, singleBaseCI env q iso st = z := by
    intro iso st
    simp [singleBaseCI, singleBaseCIOpt, hzc]
  have hbyp : ∀ iso st, singleBypassCI env q iso st = z := by
    intro iso st
    unfold singleBypassCI
    rw [hbase]
    exact if_pos ⟨hlt, by simp [hz]⟩
  simp only [compute_green_score] at hlive ⊢
  rw [hbyp, max_eq_right hnn] at hlive ⊢
  exact livePart_not_applied _ _ _ _ hlive

/-! ## C1 -/

/-- Counterexample for C1: on `envLive` the query resolves to a zone with
baseline 50 < 100, yet the returned intensity is the live-feed value 120 —
the live override (applied after the clean-grid bypass) changes the value,
so the bypass result is not final. -/
theorem C1_counterexample :
    zoneCI envLive qTest = some 50 ∧ ((50:ℚ) < 100) ∧
    (compute_green_score envLive qTest false false).finalCI = 120 ∧
    ((120:ℚ) ≠ 50) := by
  refine ⟨rfl, by norm_num, ?_, by norm_num⟩
  simp [compute_green_score, resolveCountryState, isoFromNearest, envLive,
    livePart, query_uk_carbon_intensity, ukEntry]

/-- C1 (amended): for a query whose zone resolves with baseline `z < 100`
(and `z ≥ 0`, as the zone loader guarantees), every corresponding batch entry
equals `z` exactly (the clean-zone overwrite runs after the clamp and no live
override exists in the batch path), and the scalar intensity equals `z`
whenever the live override does not fire — for GBR with the feed enabled and
forecasting, the live value replaces it. -/
theorem C1_amended (env : Env) (q : Query) (ty : Option ℤ)
    (zf : Query → Option ℚ) (z : ℚ) (dl dg : Bool)
    (hz : env.zone = some zf) (hq : zf q = some z) (hlt : z < 100) (hnn : 0 ≤ z) :
    predict_grid_batch_point env q ty = z ∧
    ((compute_green_score env q dl dg).liveOverrideApplied = false →
      (compute_green_score env q dl dg).finalCI = z ∧
      (compute_green_score env q dl dg).reportedCI = round3 z) := by
  refine ⟨batch_cleanZone env q ty zf z hz hq hlt, fun hlive => ?_⟩
  have hfin := single_cleanZone env q zf z dl dg hz hq hlt hnn hlive
  exact ⟨hfin, by rw [reported_eq_round3, hfin]⟩

/-- Witness for C1 (amended): on `envClean` (zone baseline 40, no live
country) both paths return exactly 40. -/
theorem C1_witness :
    predict_grid_batch_point envClean qTest none = 40 ∧
    (compute_green_score envClean qTest false false).finalCI = 40 := by
  have hlive : (compute_green_score envClean qTest false false).liveOverrideApplied
      = false := by
    simp [compute_green_score, resolveCountryState, isoFromNearest, envClean, livePart]
  exact ⟨(C1_amended envClean qTest none (fun _ => some 40) 40 false false rfl rfl
      (by norm_num) (by norm_num)).1,
    ((C1_amended envClean qTest none (fun _ => some 40) 40 false false rfl rfl
      (by norm_num) (by norm_num)).2 hlive).1⟩

/-! ## C2 -/

/-- C2 (amended): batch/scalar agreement holds exactly for points whose zone
resolves below 100 without a live override: both paths return the zone
baseline (the scalar response additionally rounds to 3 decimals when
serialised).  In general the two paths compute different feature values and
are not equivalent (see the counterexample). -/
theorem C2_amended (env : Env) (q : Query) (zf : Query → Option ℚ) (z : ℚ)
    (dl dg : Bool) (hz : env.zone = some zf) (hq : zf q = some z)
    (hlt : z < 100) (hnn : 0 ≤ z)
    (hlive : (compute_green_score env q dl dg).liveOverrideApplied = false) :
    predict_grid_batch env [q] none = [(compute_green_score env q dl dg).finalCI] := by
  have h1 := batch_cleanZone env q none zf z hz hq hlt
  have h2 := single_cleanZone env q zf z dl dg hz hq hlt hnn hlive
  simp [predict_grid_batch, h1, h2]

/-- Witness for C2 (amended): on `envClean` the one-point batch equals the
scalar result. -/
theorem C2_witness :
    predict_grid_batch envClean [qTest] none =
      [(compute_green_score envClean qTest false false).finalCI] := by
  have hlive : (compute_green_score envClean qTest false false).liveOverrideApplied
      = false := by
    simp [compute_green_score, resolveCountryState, isoFromNearest, envClean, livePart]
  exact C2_amended envClean qTest (fun _ => some 40) 40 false false rfl rfl
    (by norm_num) (by norm_num) hlive

/-- Counterexample for C2: on `envDiv` (two co-located plants of capacities 1
and 3, model passing `idw_weighted_ci` through) the one-point batch returns
1139/4 = 284.75 (capacity-weighted IDW) while the scalar path returns
1043/2 = 521.5 (unweighted IDW): the difference exceeds any floating-point
tolerance, so batch/scalar equivalence fails in general. -/
theorem C2_counterexample :
    predict_grid_batch envDiv [qTest] none = [1139/4] ∧
    (compute_green_score envDiv qTest false false).finalCI = 1043/2 ∧
    (1 : ℚ) < 1043/2 - 1139/4 := by
  have hcCoal : classify_fuel "coal" = "coal" := by decide
  have hcSolar : classify_fuel "solar" = "solar" := by decide
  refine ⟨?_, ?_, by norm_num⟩
  · simp [predict_grid_batch, predict_grid_batch_point, batchFeats, batchIdwCI,
      batchPlantWeight, renewWeight, renewCI, plantFuelCI, idwW, dSq, capD0,
      modelPredict, dotScaled, featsLookup, modelIdw, envDiv, qTest, plantCoal,
      plantSolar, fwBase, worldAvg, zoneCI, isoFromNearest, countryMixCI,
      hcCoal, hcSolar, max_def]
    norm_num
  · simp [compute_green_score, resolveCountryState, isoFromNearest, envDiv,
      singleBaseCI, singleBaseCIOpt, countryMixCI, singleBypassCI, singleModelCI,
      singleFeats, singleIdwCI, singleIdwNumer, singleIdwDenom, plantFuelCI,
      idwW, dSq, capD0, modelPredict, dotScaled, featsLookup, modelIdw, qTest,
      plantCoal, plantSolar, fwBase, worldAvg, zoneCI, livePart,
      query_uk_carbon_intensity, hcCoal, hcSolar, max_def]
    norm_num

/-! ## C3 -/

/-- Counterexample for C3: the live override replaces the intensity after the
`max(0, ·)` clamp, and the live value is not validated — with a feed
forecasting −5 the scalar path returns −5 < 0. -/
theorem C3_counterexample :
    (compute_green_score envNeg qTest false false).finalCI = -5 ∧
    ¬ (0 ≤ (compute_green_score envNeg qTest false false).finalCI) := by
  have h : (compute_green_score envNeg qTest false false).finalCI = -5 := by
    simp [compute_green_score, resolveCountryState, isoFromNearest, envNeg,
      livePart, query_uk_carbon_intensity, ukEntryNeg]
  exact ⟨h, by rw [h]; norm_num⟩

/-- C3 (amended): every batch entry is non-negative (the model score is
clamped at 0 and the clean-zone overwrite uses the loader's positive zone
baselines), and the scalar intensity — clamped before return — is
non-negative whenever the live override does not fire; the live value itself
is returned unclamped. -/
theorem C3_amended (env : Env) (q : Query) (ty : Option ℤ) (dl dg : Bool)
    (hz : ZoneNonneg env) :
    0 ≤ predict_grid_batch_point env q ty ∧
    ((compute_green_score env q dl dg).liveOverrideApplied = false →
      0 ≤ (compute_green_score env q dl dg).finalCI ∧
      0 ≤ (compute_green_score env q dl dg).reportedCI) := by
  constructor
  · unfold predict_grid_batch_point
    cases hq : zoneCI env q with
    | none => exact le_max_right _ _
    | some z =>
        have hz0 := hz q z hq
        by_cases hzl : z < 100
        · simp only [hzl, if_true]
          exact hz0
        · simp only [hzl, if_false]
          exact le_max_right _ _
  · intro hlive
    have hfin : (compute_green_score env q dl dg).finalCI =
        max 0 ((compute_green_score env q dl dg).predictedCI) := by
      simp only [compute_green_score] at hlive ⊢
      exact livePart_not_applied _ _ _ _ hlive
    have h0 : 0 ≤ (compute_green_score env q dl dg).finalCI := by
      rw [hfin]
      exact le_max_left _ _
    exact ⟨h0, by rw [reported_eq_round3]; exact round3_nonneg h0⟩

/-- Witness for C3 (amended): `envClean` has non-negative zone baselines and
no live override; both paths return non-negative intensities. -/
theorem C3_witness :
    0 ≤ predict_grid_batch_point envClean qTest none ∧
    0 ≤ (compute_green_score envClean qTest false false).finalCI := by
  have hzn : ZoneNonneg envClean := by
    intro q z h
    simp [zoneCI, envClean] at h
    rw [← h]
    norm_num
  have hlive : (compute_green_score envClean qTest false false).liveOverrideApplied
      = false := by
    simp [compute_green_score, resolveCountryState, isoFromNearest, envClean, livePart]
  exact ⟨(C3_amended envClean qTest none false false hzn).1,
    ((C3_amended envClean qTest none false false hzn).2 hlive).1⟩

/-- Every zone CI the loader stores is positive, hence non-negative: zone
tables built by `load_emaps_zones` satisfy the `ZoneNonneg` assumption. -/
theorem storeZoneCI_pos {ci z : ℚ} (h : storeZoneCI ci = some z) : 0 < z := by
  unfold storeZoneCI at h
  split at h
  case isTrue hp => exact (Option.some.inj h) ▸ hp
  case isFalse hp => exact absurd h (by simp)
